import Mathlib

/-!
Verification of the condor job-submission module (condor.py).

The definitions below are a shallow embedding of the `Job` class and its
helpers.  External processes (condor_submit, condor_q, cat of the mail map)
are modelled by passing their observable result - the exit code and the
reply text - as explicit parameters; console printing is not modelled.
Python strings are Lean `String`s (operated on through their character
lists), Python floats in `wait()` are modelled as rationals (all values
occurring there, 1.0 + 0.5*k and 30.0, are exact dyadic rationals, so the
model is exact), and the settings dictionary is an insertion-ordered
association list (an exact model of the CPython dict used by the code up to
iteration order, on which no claim depends).
-/

namespace Condor

/-- Values stored in the settings dictionary: the code stores strings,
ints (request_cpus, request_memory, request_disk) and one bool
(transfer_executable). -/
inductive PyVal where
  | str (s : String)
  | int (n : Int)
  | bool (b : Bool)
deriving DecidableEq

/-- Python str() of a settings value, as used by _generateSubmitString. -/
def pyStr : PyVal → String
  | .str s => s
  | .int n => toString n
  | .bool b => if b then "True" else "False"

/-- The exception kinds raised by the module, plus `nameError` (Python
NameError, raised when the code evaluates the undefined name `mesg`) and
`noReply` (a model artifact: the finite stub of queue replies ran out while
the code would keep polling). -/
inductive Err where
  | invalidUniverse (v : String)
  | badFormat (v : String)
  | submission (v : String)
  | requiredSetting (v : String)
  | emptySetting (v : String)
  | badQuotes (v : String)
  | typeError
  | nameError
  | noReply
deriving DecidableEq

/-- Result of a Python call: a value, or a raised exception. -/
inductive PyRes (α : Type) where
  | ok (a : α)
  | err (e : Err)
deriving DecidableEq

/-- The settings dictionary: insertion-ordered association list. -/
abbrev Settings := List (String × PyVal)

/-- d[k] = v with CPython dict semantics: an existing key keeps its
position, a new key is appended at the end. -/
def dictSet (d : Settings) (k : String) (v : PyVal) : Settings :=
  match d with
  | [] => [(k, v)]
  | (k1, v1) :: t => if k1 = k then (k, v) :: t else (k1, v1) :: dictSet t k v

/-- d[k] lookup (none models a KeyError). -/
def dictGet (d : Settings) (k : String) : Option PyVal :=
  match d with
  | [] => none
  | (k1, v1) :: t => if k1 = k then some v1 else dictGet t k

/-- The state of a Job object: the fields of Job.__init__ that the claims
touch.  Fields irrelevant to every claim (server, the Shell object, the
cached _executablePath) are omitted. -/
structure JobState where
  settings : Settings
  submitLinesSoFar : String
  cluster : Option Nat
  maxPollTime : Rat
  username : Option String
deriving DecidableEq

/-! ### Character-list utilities mirroring the Python string operations -/

/-- The double-quote character (written via its code point so that the
source file contains no quote characters inside literals). -/
def dqChar : Char := Char.ofNat 34

/-- The single-quote character. -/
def sqChar : Char := Char.ofNat 39

/-- Python str.strip() whitespace set: space, tab, newline, carriage
return, vertical tab, form feed. -/
def isPyWs (c : Char) : Bool :=
  c = ' ' || c = Char.ofNat 9 || c = Char.ofNat 10 || c = Char.ofNat 13
    || c = Char.ofNat 11 || c = Char.ofNat 12

/-- Python str.strip() on a character list. -/
def pyStrip (l : List Char) : List Char :=
  ((l.dropWhile isPyWs).reverse.dropWhile isPyWs).reverse

/-- Python str.strip() on a String. -/
def pyStripS (s : String) : String := String.mk (pyStrip s.data)

/-- Python substring containment (`needle in hay`). -/
def containsSub (needle : List Char) : List Char → Bool
  | [] => needle.isEmpty
  | h :: t => needle.isPrefixOf (h :: t) || containsSub needle t

/-- Worker for countSub: scan left to right; on a match, count it and
resume after the matched text (drop the needle tail from the remaining
list), else advance one character.  The fuel argument starts at the length
of the scanned list and strictly dominates the number of steps (each step
consumes at least one character), so the 0 fuel case is unreachable; fuel
makes the recursion structural. -/
def countSubGo (needle : List Char) : Nat → List Char → Nat
  | _, [] => 0
  | 0, _ => 0
  | fuel + 1, h :: t =>
    if needle.isPrefixOf (h :: t) then
      countSubGo needle fuel (t.drop (needle.length - 1)) + 1
    else countSubGo needle fuel t

/-- Python str.count: non-overlapping occurrences, scanning left to right
(for an empty needle Python returns length + 1, as does this). -/
def countSub (needle hay : List Char) : Nat :=
  match needle with
  | [] => hay.length + 1
  | _ :: _ => countSubGo needle hay.length hay

/-- Python replace applied to a doubled double quote with the empty string:
scans left to right, removing each adjacent pair of double quotes. -/
def removePairs : List Char → List Char
  | c1 :: c2 :: t =>
    if c1 = dqChar ∧ c2 = dqChar then removePairs t
    else c1 :: removePairs (c2 :: t)
  | l => l

/-- ASCII decimal digit (the regex class \d restricted to ASCII, which is
what the external tool emits). -/
def isAsciiDigit (c : Char) : Bool := ('0' ≤ c) && (c ≤ '9')

/-- Decimal value of a digit run, as computed by Python int(). -/
def digitsVal (l : List Char) : Nat :=
  l.foldl (fun a c => 10 * a + (c.toNat - 48)) 0

/-- The literal searched for by re.search in Job.submit. -/
def clusterKey : List Char := "cluster ".data

/-- True when the list starts with a digit. -/
def headIsDigit : List Char → Bool
  | [] => false
  | c :: _ => isAsciiDigit c

/-- re.search of the pattern `(cluster )(\d+)` over the reply, returning
group 2: the leftmost position at which the text `cluster ` is followed by
at least one digit, capturing the maximal digit run that follows. -/
def findClusterDigits : List Char → Option (List Char)
  | [] => none
  | h :: t =>
    if clusterKey.isPrefixOf (h :: t) && headIsDigit ((h :: t).drop 8) then
      some (((h :: t).drop 8).takeWhile isAsciiDigit)
    else findClusterDigits t

/-! ### The modelled operations of the Job class -/

/-- The serialization loop of _generateSubmitString: one `key = value`
line, terminated by a newline, per entry of the settings dictionary, in
iteration order. -/
def serializeSettings : Settings → String
  | [] => ""
  | (k, v) :: t => k ++ " = " ++ pyStr v ++ "\n" ++ serializeSettings t

/-- Job._generateSubmitString(update): appends the serialized current
settings to the accumulated submit text; when `update` is true it also
clears the settings dictionary and stores the grown text back into
submitLinesSoFar.  Returns the text and the post state. -/
def generateSubmitString (update : Bool) (s : JobState) : String × JobState :=
  let allLines := s.submitLinesSoFar ++ serializeSettings s.settings
  if update then (allLines, { s with settings := [], submitLinesSoFar := allLines })
  else (allLines, s)

/-- The quote gate at the start of Job.queue: the command line is stripped,
doubled double quotes are removed, and if a double quote remains BadQuotes
is raised.  (The remainder of Job.queue - shlex tokenization, executable
resolution through the shell, the settings flush and the Queue directive -
runs only after this gate passes and is modelled separately where a claim
needs it.) -/
def queueGate (commandLine : String) : PyRes Unit :=
  if containsSub [dqChar] (removePairs (pyStrip commandLine.data)) then
    .err (.badQuotes (String.mk [dqChar]))
  else .ok ()

/-- The _validUniverses list from Job.__init__. -/
def validUniverses : List String :=
  ["vanilla", "standard", "java", "scheduler", "local", "grid", "vm"]

/-- Job.setUniverse: raises InvalidUniverseError unless the string is in
_validUniverses, otherwise stores it under the key Universe. -/
def setUniverseM (x : String) (s : JobState) : PyRes Unit × JobState :=
  if x ∈ validUniverses then
    (.ok (), { s with settings := dictSet s.settings "Universe" (.str x) })
  else (.err (.invalidUniverse x), s)

/-- Job.setTransferExecutable: raises TypeError unless the argument is a
bool, otherwise stores it under the key transfer_executable. -/
def setTransferExecutableM (v : PyVal) (s : JobState) : PyRes Unit × JobState :=
  match v with
  | .bool b => (.ok (), { s with settings := dictSet s.settings "transfer_executable" (.bool b) })
  | _ => (.err .typeError, s)

/-- Job.getTransferExecutable: reads the key Input (as the source does) and
raises EmptySetting on a KeyError. -/
def getTransferExecutableM (s : JobState) : PyRes PyVal :=
  match dictGet s.settings "Input" with
  | some v => .ok v
  | none => .err (.emptySetting "TransferExecutable")

/-- The fallback chain of Job.setEmail over the deserialized mail map
(modelled as a lookup from an optional username key, None being the
distinguished default key of the pickled dict): the entry for the username,
else the entry for None, else the hardcoded literal. -/
def emailChoice (em : Option String → Option String) (u : Option String) : String :=
  match em u with
  | some e => e
  | none =>
    match em none with
    | some e => e
    | none => "kollerg14@mail.wlu.edu"

/-- The automatic branch of Job.setEmail: the shell reads the mail map
file; on exit code 0 the decoded map drives the fallback chain, on a
nonzero exit code nothing is written. -/
def setEmailAuto (status : Int) (em : Option String → Option String) (s : JobState) : JobState :=
  if status = 0 then
    { s with settings := dictSet s.settings "notify_user" (.str (emailChoice em s.username)) }
  else s

/-- Python truthiness of the optional string argument of setEmail. -/
def pyTruthyOptStr : Option String → Bool
  | none => false
  | some a => !(a = "")

/-- Job.setEmail: a truthy argument is stored directly, otherwise the
external mail map (exit code and decoded content passed explicitly) is
consulted. -/
def setEmailM (arg : Option String) (status : Int)
    (em : Option String → Option String) (s : JobState) : JobState :=
  match arg with
  | some a => if a = "" then setEmailAuto status em s
              else { s with settings := dictSet s.settings "notify_user" (.str a) }
  | none => setEmailAuto status em s

/-- Job.submit, with the external condor_submit call replaced by its exit
code and reply text.  The call first flushes the settings through
_generateSubmitString() (mutating the state even when submission then
fails).  A nonzero exit code prints a diagnostic (not modelled) and
returns None; on exit code 0 the reply is searched for `cluster <digits>`,
a missing match (or a non-digit capture - impossible by construction, the
source re-checks with isdigit and so does this model) raises
BadFormatError, and otherwise the parsed number is stored as the cluster
and returned. -/
def submitM (code : Int) (reply : String) (s : JobState) : PyRes (Option Nat) × JobState :=
  let s1 := (generateSubmitString true s).2
  if code ≠ 0 then (.ok none, s1)
  else
    match findClusterDigits reply.data with
    | none => (.err (.badFormat "condor_submit"), s1)
    | some ds =>
      if ds.all isAsciiDigit then
        (.ok (some (digitsVal ds)), { s1 with cluster := some (digitsVal ds) })
      else (.err (.badFormat "condor_submit"), s1)

/-- Job._checkQueue: the guard is the Python truthiness test
`if self.cluster:` - it raises SubmissionError both when the cluster is
None and when it is the integer 0; otherwise it runs condor_q, whose
result is the explicit `reply` parameter. -/
def checkQueue (s : JobState) (reply : Int × String) : PyRes (Int × String) :=
  match s.cluster with
  | some c => if c = 0 then .err (.submission "_checkQueue()") else .ok reply
  | none => .err (.submission "_checkQueue()")

/-- Job.poll: SubmissionError when cluster is None; then _checkQueue; on a
nonzero exit code the source evaluates `str(mesg)` inside the diagnostic
print on line 811, and `mesg` is an undefined name, so Python raises
NameError there (the `raise BadFormatError` on line 812 is unreachable);
on exit code 0 the count of `<cluster>.` occurrences in the reply is
returned. -/
def pollM (s : JobState) (reply : Int × String) : PyRes Nat :=
  match s.cluster with
  | none => .err (.submission "poll()")
  | some c =>
    match checkQueue s reply with
    | .err e => .err e
    | .ok (retval, msg) =>
      if retval ≠ 0 then .err .nameError
      else .ok (countSub (toString c ++ ".").data msg.data)

/-- Job.status: SubmissionError when cluster is None (status does not go
through _checkQueue); on a nonzero exit code the same undefined name
`mesg` is evaluated on line 830, raising NameError before the BadFormatError
on line 831; otherwise the reply text is handed to the formatter (modelled
as returning the text). -/
def statusM (s : JobState) (reply : Int × String) : PyRes String :=
  match s.cluster with
  | none => .err (.submission "status()")
  | some _ =>
    if reply.1 ≠ 0 then .err .nameError
    else .ok reply.2

/-- The polling loop of Job.wait, over the current _checkQueue result
`cur` and the stream `rest` of later _checkQueue results.  While the
cluster id string occurs in the stripped reply: a nonzero exit code makes
the source evaluate the undefined name `mesg` (line 795), raising
NameError; otherwise the loop sleeps min(currPollTime, maxPollTime),
increments currPollTime by one half, and re-polls.  The returned list is
the sequence of sleep durations; noReply is the model artifact for a
finite reply stub running out while the source would still be polling. -/
def waitLoop (cid : List Char) (M : Rat) (t : Rat) (cur : Int × String)
    (rest : List (Int × String)) : PyRes (List Rat) :=
  if containsSub cid (pyStrip cur.2.data) then
    if cur.1 ≠ 0 then .err .nameError
    else
      match rest with
      | [] => .err .noReply
      | r :: rs =>
        match waitLoop cid M (t + 1/2) r rs with
        | .ok ss => .ok (min t M :: ss)
        | .err e => .err e
  else .ok []
termination_by rest.length
decreasing_by simp_wf

/-- Entry into the wait loop: the first _checkQueue reply seeds the loop
with currPollTime = 1. -/
def waitChain (cid : List Char) (M : Rat) (t : Rat) :
    List (Int × String) → PyRes (List Rat)
  | [] => .err .noReply
  | r :: rs => waitLoop cid M t r rs

/-- Job.wait: SubmissionError when cluster is None; the first _checkQueue
call then raises SubmissionError itself when the cluster id is the integer
0 (Python truthiness); otherwise the polling loop runs over the supplied
stream of condor_q results and the list of sleep durations is returned. -/
def waitM (s : JobState) (replies : List (Int × String)) : PyRes (List Rat) :=
  match s.cluster with
  | none => .err (.submission "wait()")
  | some c =>
    if c = 0 then .err (.submission "_checkQueue()")
    else waitChain (toString c).data s.maxPollTime 1 replies

/-! ### State-mutating operations, for the cluster-immutability claim -/

/-- The state-mutating operations of a Job object, each carrying the
observable results of whatever external commands it consults.  setPlain
stands for the family of plain setters (setInput, setOutput, setError,
setLog, setRequirements, setInitialDirectory, setNotification, setCPUNum,
setRAM, setDiskSpace, setTransferFiles, ...), all of which just store one
key; queueMark is the Queue directive appended at the end of Job.queue. -/
inductive Op where
  | setU (x : String)
  | setTE (v : PyVal)
  | setEm (arg : Option String) (status : Int) (em : Option String → Option String)
  | setPlain (k : String) (v : PyVal)
  | flushOp (update : Bool)
  | queueMark (times : Int)
  | submitOp (code : Int) (reply : String)

/-- The effect of each operation on the Job state (for operations that can
raise, the state at the point the exception propagates). -/
def applyOp : Op → JobState → JobState
  | .setU x, s => (setUniverseM x s).2
  | .setTE v, s => (setTransferExecutableM v s).2
  | .setEm a st em, s => setEmailM a st em s
  | .setPlain k v, s => { s with settings := dictSet s.settings k v }
  | .flushOp u, s => (generateSubmitString u s).2
  | .queueMark n, s =>
    { s with submitLinesSoFar := s.submitLinesSoFar
        ++ (if n ≠ 1 then "Queue " ++ toString n ++ "\n" else "Queue\n") }
  | .submitOp code reply, s => (submitM code reply s).2

/-! ### Concrete states used by counterexamples and witnesses -/

/-- A Job state as left by __init__ (modulo the notify_user entry, which
depends on the mail map): the defaults Universe = vanilla, 1 CPU, 1024 MB
RAM, 32 MB disk, no cluster id, maxPollTime 30. -/
def baseJob : JobState :=
  { settings := [("Universe", .str "vanilla"), ("request_cpus", .int 1),
                 ("request_memory", .int 1024), ("request_disk", .int 32)],
    submitLinesSoFar := "", cluster := none, maxPollTime := 30,
    username := some "kollerg" }

/-- baseJob after a successful submission that assigned cluster id 42. -/
def job42 : JobState := { baseJob with cluster := some 42 }

/-- baseJob after a successful submission that assigned cluster id 1. -/
def job1 : JobState := { baseJob with cluster := some 1 }

/-- baseJob after a successful submission that assigned cluster id 7. -/
def job7 : JobState := { baseJob with cluster := some 7 }

/-- The command line `echo 'a"b'`: a double quote enclosed in single
quotes (built from character codes so that the file itself contains no
quote characters inside string literals). -/
def cmdSingleQuoted : String :=
  String.mk (['e', 'c', 'h', 'o', ' '] ++ [sqChar, 'a', dqChar, 'b', sqChar])

/-- The command line `echo "a"`: an unescaped double quote. -/
def cmdDoubleQuoted : String :=
  String.mk (['e', 'c', 'h', 'o', ' '] ++ [dqChar, 'a', dqChar])

/-- The command line `echo ""a""`: every double quote doubled. -/
def cmdDoubled : String :=
  String.mk (['e', 'c', 'h', 'o', ' '] ++ [dqChar, dqChar, 'a', dqChar, dqChar])

/-- A reply of the external submit tool that carries a cluster number. -/
def replySuccess : String := "Submitting job(s).. 2 job(s) submitted to cluster 97."

/-- A reply of the external submit tool that assigns cluster number 0. -/
def replyZero : String := "1 job(s) submitted to cluster 0."

/-- A concrete mail map for witnesses: one username entry, no default. -/
def mailMap0 : Option String → Option String :=
  fun u => if u = some "kollerg" then some "garrett@example.edu" else none

/-! ### Helper lemmas -/

theorem all_takeWhile (p : Char → Bool) (l : List Char) :
    (l.takeWhile p).all p = true := by
  rw [List.all_eq_true]
  intro a ha
  exact List.mem_takeWhile_imp ha

theorem findClusterDigits_all (l ds : List Char)
    (h : findClusterDigits l = some ds) : ds.all isAsciiDigit = true := by
  induction l with
  | nil => simp [findClusterDigits] at h
  | cons c t ih =>
    rw [findClusterDigits] at h
    split at h
    · injection h with h1
      rw [← h1]
      exact all_takeWhile _ _
    · exact ih h

theorem dictGet_dictSet (d : Settings) (k : String) (v : PyVal) :
    dictGet (dictSet d k v) k = some v := by
  induction d with
  | nil => simp [dictSet, dictGet]
  | cons p t ih =>
    obtain ⟨k1, v1⟩ := p
    by_cases h : k1 = k
    · simp [dictSet, dictGet, h]
    · simp [dictSet, dictGet, h, ih]

theorem waitLoop_exit (cid : List Char) (M t : Rat) (cur : Int × String)
    (rest : List (Int × String))
    (h : containsSub cid (pyStrip cur.2.data) = false) :
    waitLoop cid M t cur rest = .ok [] := by
  unfold waitLoop
  rw [h]
  simp

theorem waitLoop_cont (cid : List Char) (M t : Rat) (cur r : Int × String)
    (rs : List (Int × String))
    (h1 : containsSub cid (pyStrip cur.2.data) = true) (h2 : cur.1 = 0) :
    waitLoop cid M t cur (r :: rs)
      = match waitLoop cid M (t + 1/2) r rs with
        | .ok ss => .ok (min t M :: ss)
        | .err e => .err e := by
  conv_lhs => unfold waitLoop
  rw [h1, h2]
  simp

theorem waitChain_spec (cid : List Char) (M : Rat) (last : Int × String)
    (hlast : containsSub cid (pyStrip last.2.data) = false)
    (cs : List (Int × String)) :
    ∀ t : Rat,
      (∀ r ∈ cs, r.1 = 0 ∧ containsSub cid (pyStrip r.2.data) = true) →
      waitChain cid M t (cs ++ [last])
        = .ok ((List.range cs.length).map fun (k : Nat) => min (t + (k : Rat) / 2) M) := by
  induction cs with
  | nil =>
    intro t _
    show waitLoop cid M t last [] = _
    rw [waitLoop_exit cid M t last [] hlast]
    simp
  | cons c0 cs ih =>
    intro t hall
    have h0 := hall c0 (List.mem_cons_self _ _)
    have hcs : ∀ r ∈ cs, r.1 = 0 ∧ containsSub cid (pyStrip r.2.data) = true :=
      fun r hr => hall r (List.mem_cons_of_mem _ hr)
    cases hsplit : cs ++ [last] with
    | nil => exact absurd hsplit (by simp)
    | cons r rs =>
      have hstep : waitChain cid M t ((c0 :: cs) ++ [last])
          = waitLoop cid M t c0 (r :: rs) := by
        rw [List.cons_append, hsplit]
        rfl
      have hrec : waitLoop cid M (t + 1/2) r rs
          = waitChain cid M (t + 1/2) (cs ++ [last]) := by
        rw [hsplit]
        rfl
      rw [hstep, waitLoop_cont cid M t c0 r rs h0.2 h0.1, hrec,
        ih (t + 1/2) hcs]
      show PyRes.ok _ = PyRes.ok _
      congr 1
      rw [List.length_cons, List.range_succ_eq_map, List.map_cons, List.map_map]
      congr 1
      · norm_num
      · refine List.map_congr_left (fun k _ => ?_)
        show min (t + 1/2 + (k : Rat) / 2) M = min (t + ((k + 1 : Nat) : Rat) / 2) M
        congr 1
        push_cast
        ring

/-! ### The claims -/

/-- Claim C1: for every job state and every reply of the external submit
command, a nonzero exit code makes submit return None without raising and
without assigning a cluster identifier (the state is only flushed through
_generateSubmitString, so an absent identifier stays absent); on exit code
0 the digits following `cluster ` in the reply are parsed and stored as
the cluster identifier and returned, and a reply with no such match raises
BadFormatError. -/
theorem submit_contract (s : JobState) (code : Int) (reply : String) :
    (code ≠ 0 →
      submitM code reply s = (.ok none, (generateSubmitString true s).2)
      ∧ ((submitM code reply s).2).cluster = s.cluster)
    ∧ (∀ ds, code = 0 → findClusterDigits reply.data = some ds →
        submitM code reply s
          = (.ok (some (digitsVal ds)),
             { (generateSubmitString true s).2 with cluster := some (digitsVal ds) }))
    ∧ (code = 0 → findClusterDigits reply.data = none →
        submitM code reply s
          = (.err (.badFormat "condor_submit"), (generateSubmitString true s).2)) := by
  refine ⟨fun h => ⟨?_, ?_⟩, fun ds h0 hds => ?_, fun h0 hn => ?_⟩
  · simp [submitM, h]
  · simp [submitM, h, generateSubmitString]
  · simp [submitM, h0, hds, findClusterDigits_all _ _ hds]
  · simp [submitM, h0, hn]

theorem submit_contract_witness :
    submitM 1 "connection refused" baseJob
      = (.ok none, (generateSubmitString true baseJob).2)
    ∧ submitM 0 replySuccess baseJob
      = (.ok (some 97), { (generateSubmitString true baseJob).2 with cluster := some 97 }) := by
  constructor
  · exact ((submit_contract baseJob 1 "connection refused").1 (by decide)).1
  · have h := (submit_contract baseJob 0 replySuccess).2.1 ("97".data) rfl (by decide)
    exact h.trans (by decide)

/-- Claim C2: flushing with update (clearAfter) true appends one
`key = value` line per set attribute to the accumulated text and empties
the settings dictionary, so a second flush before any new set appends
nothing and preserves the accumulated text. -/
theorem flush_clears_settings (s : JobState) :
    (generateSubmitString true s).1 = s.submitLinesSoFar ++ serializeSettings s.settings
    ∧ ((generateSubmitString true s).2).settings = []
    ∧ ((generateSubmitString true s).2).submitLinesSoFar
        = s.submitLinesSoFar ++ serializeSettings s.settings
    ∧ generateSubmitString true ((generateSubmitString true s).2)
        = ((generateSubmitString true s).1, (generateSubmitString true s).2) := by
  refine ⟨rfl, rfl, rfl, ?_⟩
  simp [generateSubmitString, serializeSettings]

/-- Claim C6: setUniverse succeeds exactly on the seven valid universe
strings, storing the value under the key Universe, and raises
InvalidUniverseError on every other input while leaving the state
unchanged. -/
theorem setUniverse_contract (x : String) (s : JobState) :
    (x ∈ validUniverses →
      setUniverseM x s
        = (.ok (), { s with settings := dictSet s.settings "Universe" (.str x) })
      ∧ dictGet ((setUniverseM x s).2).settings "Universe" = some (.str x))
    ∧ (x ∉ validUniverses → setUniverseM x s = (.err (.invalidUniverse x), s))
    ∧ (x ∈ validUniverses ↔
        x = "vanilla" ∨ x = "standard" ∨ x = "java" ∨ x = "scheduler"
        ∨ x = "local" ∨ x = "grid" ∨ x = "vm") := by
  refine ⟨fun h => ⟨by simp [setUniverseM, h], ?_⟩,
    fun h => by simp [setUniverseM, h], by simp [validUniverses]⟩
  simp [setUniverseM, h, dictGet_dictSet]

theorem setUniverse_contract_witness :
    setUniverseM "java" baseJob
      = (.ok (), { baseJob with settings := dictSet baseJob.settings "Universe" (.str "java") })
    ∧ setUniverseM "matlab" baseJob = (.err (.invalidUniverse "matlab"), baseJob) :=
  ⟨((setUniverse_contract "java" baseJob).1 (by decide)).1,
   (setUniverse_contract "matlab" baseJob).2.1 (by decide)⟩

/-- Claim C10: setEmail with a falsy argument consults the external mail
map; a nonzero exit code of the read leaves the state untouched (no
notify_user written), and on success notify_user is set to the map entry
for the username, else the entry for the None key, else the hardcoded
literal address. -/
theorem setEmail_auto_contract (arg : Option String) (h : pyTruthyOptStr arg = false)
    (status : Int) (em : Option String → Option String) (s : JobState) :
    (status ≠ 0 → setEmailM arg status em s = s)
    ∧ (status = 0 →
        setEmailM arg status em s
          = { s with settings :=
                dictSet s.settings "notify_user" (.str (emailChoice em s.username)) }
        ∧ dictGet (setEmailM arg status em s).settings "notify_user"
          = some (.str (emailChoice em s.username))) := by
  have harg : arg = none ∨ arg = some "" := by
    cases arg with
    | none => exact Or.inl rfl
    | some a =>
      right
      simp [pyTruthyOptStr] at h
      rw [h]
  refine ⟨fun hs => ?_, fun hs => ⟨?_, ?_⟩⟩
  · rcases harg with h1 | h1 <;> subst h1 <;> simp [setEmailM, setEmailAuto, hs]
  · rcases harg with h1 | h1 <;> subst h1 <;> simp [setEmailM, setEmailAuto, hs]
  · rcases harg with h1 | h1 <;> subst h1 <;>
      simp [setEmailM, setEmailAuto, hs, dictGet_dictSet]

theorem setEmail_auto_contract_witness :
    setEmailM none 1 mailMap0 baseJob = baseJob
    ∧ dictGet (setEmailM none 0 mailMap0 baseJob).settings "notify_user"
        = some (.str "garrett@example.edu") := by
  constructor
  · exact (setEmail_auto_contract none rfl 1 mailMap0 baseJob).1 (by decide)
  · have h := ((setEmail_auto_contract none rfl 0 mailMap0 baseJob).2 rfl).2
    exact h.trans (by decide)

/-- Claim C3, counterexample: a successful submit whose reply reads
`cluster 0` assigns cluster identifier 0, yet poll on the resulting state
raises SubmissionError (the truthiness guard of _checkQueue) instead of
returning the occurrence count 1 that the claim promises. -/
theorem poll_cluster_zero_cex :
    (submitM 0 replyZero baseJob).1 = .ok (some 0)
    ∧ ((submitM 0 replyZero baseJob).2).cluster = some 0
    ∧ pollM ((submitM 0 replyZero baseJob).2) (0, "0.")
        = .err (.submission "_checkQueue()")
    ∧ countSub "0.".data "0.".data = 1 := by decide

/-- Claim C3, amended: poll raises SubmissionError when no cluster
identifier is assigned and also when the assigned identifier is 0; for a
nonzero assigned identifier c and a zero exit code of the queue query,
poll returns exactly the number of occurrences of `c.` in the reply. -/
theorem poll_counts_occurrences (s : JobState) (c : Nat) (hc : c ≠ 0)
    (h : s.cluster = some c) (msg : String) :
    pollM s (0, msg) = .ok (countSub (toString c ++ ".").data msg.data)
    ∧ (∀ s2 : JobState, s2.cluster = none → ∀ rp, pollM s2 rp = .err (.submission "poll()"))
    ∧ (∀ s2 : JobState, s2.cluster = some 0 → ∀ rp,
        pollM s2 rp = .err (.submission "_checkQueue()")) := by
  refine ⟨?_, fun s2 h2 rp => by simp [pollM, h2], fun s2 h2 rp => by simp [pollM, checkQueue, h2]⟩
  simp [pollM, checkQueue, h, hc]

theorem poll_counts_occurrences_witness :
    pollM { baseJob with cluster := some 3 } (0, "3.0\n3.1") = .ok 2 := by
  have h := (poll_counts_occurrences { baseJob with cluster := some 3 } 3 (by decide) rfl
    "3.0\n3.1").1
  exact h.trans (by decide)

/-- Claim C4, counterexample: the command line `echo 'a"b'` - a double
quote enclosed in single quotes - is claimed to be accepted, but the quote
gate of Job.queue raises BadQuotes on it: the code only neutralizes
doubled double quotes and single quotes do not protect anything. -/
theorem queue_single_quoted_cex :
    queueGate cmdSingleQuoted = .err (.badQuotes (String.mk [dqChar])) := by decide

/-- Claim C4, amended: the quote gate of Job.queue raises BadQuotes
exactly when the stripped command line still contains a double quote after
doubled double quotes are removed; enclosing a double quote in single
quotes does not protect it (`echo 'a"b'` raises BadQuotes), `echo "a"`
raises BadQuotes, and a command line whose double quotes are all doubled
passes (`echo ""a""`). -/
theorem queue_quote_gate (cmd : String) :
    (queueGate cmd = .ok ()
      ↔ containsSub [dqChar] (removePairs (pyStrip cmd.data)) = false)
    ∧ queueGate cmdDoubleQuoted = .err (.badQuotes (String.mk [dqChar]))
    ∧ queueGate cmdDoubled = .ok ()
    ∧ queueGate cmdSingleQuoted = .err (.badQuotes (String.mk [dqChar])) := by
  refine ⟨?_, by decide, by decide, by decide⟩
  cases hq : containsSub [dqChar] (removePairs (pyStrip cmd.data)) <;> simp [queueGate, hq]

/-- Claim C5: with a cluster identifier assigned and a nonzero exit code
from condor_q, both poll and status raise NameError - not BadFormatError -
because the diagnostic print they execute first evaluates the undefined
name `mesg` (lines 811 and 830); the `raise BadFormatError` statements on
the following lines are unreachable. -/
theorem poll_status_nonzero_exit_nameerror :
    pollM job1 (1, "condor_q: communication error") = .err .nameError
    ∧ statusM job1 (1, "condor_q: communication error") = .err .nameError
    ∧ Err.nameError ≠ Err.badFormat "condor_q" := by decide

/-- Claim C7, counterexample: a job whose assigned cluster identifier is 0
(obtainable from a submit reply reading `cluster 0`) makes wait raise
SubmissionError out of its first _checkQueue call instead of re-polling,
refuting the claim for jobs with an assigned identifier. -/
theorem wait_cluster_zero_cex :
    ((submitM 0 replyZero baseJob).2).cluster = some 0
    ∧ waitM ((submitM 0 replyZero baseJob).2) [(0, "0.")]
        = .err (.submission "_checkQueue()") := by decide

/-- Claim C7, amended: wait raises SubmissionError when no cluster
identifier is assigned (and also, via _checkQueue, when the identifier is
0); for a nonzero identifier it re-polls until the identifier string no
longer occurs in the stripped queue reply, and before the (k+1)-th re-poll
sleeps exactly min(1 + 0.5 k, maxPollTime). -/
theorem wait_backoff (s : JobState) (c : Nat) (hc : c ≠ 0) (h : s.cluster = some c)
    (cs : List (Int × String)) (last : Int × String)
    (hcs : ∀ r ∈ cs, r.1 = 0 ∧ containsSub (toString c).data (pyStrip r.2.data) = true)
    (hlast : containsSub (toString c).data (pyStrip last.2.data) = false) :
    waitM s (cs ++ [last])
      = .ok ((List.range cs.length).map fun (k : Nat) =>
          min (1 + (k : Rat) / 2) s.maxPollTime)
    ∧ (∀ s2 : JobState, s2.cluster = none → ∀ rp,
        waitM s2 rp = .err (.submission "wait()"))
    ∧ (∀ s2 : JobState, s2.cluster = some 0 → ∀ rp,
        waitM s2 rp = .err (.submission "_checkQueue()")) := by
  refine ⟨?_, fun s2 h2 rp => by simp [waitM, h2], fun s2 h2 rp => by simp [waitM, h2]⟩
  have hmain := waitChain_spec (toString c).data s.maxPollTime last hlast cs 1 hcs
  simp only [waitM, h, hc, if_neg hc]
  exact hmain

theorem wait_backoff_witness :
    waitM job7 [(0, "7.0 running"), (0, "7.0"), (0, "all done")] = .ok [1, 3/2] := by
  have h := (wait_backoff job7 7 (by decide) rfl [(0, "7.0 running"), (0, "7.0")]
    (0, "all done") (by decide) (by decide)).1
  refine h.trans ?_
  norm_num [List.range_succ, job7, baseJob, min_def]

/-- Claim C8: setTransferExecutable stores a bool under
transfer_executable (and raises TypeError on a non-bool), but
getTransferExecutable reads the key Input, so the pair does not round
trip: immediately after setTransferExecutable(True) the getter raises
EmptySetting instead of returning True. -/
theorem transferExecutable_no_roundtrip :
    (setTransferExecutableM (.bool true) baseJob).1 = .ok ()
    ∧ dictGet ((setTransferExecutableM (.bool true) baseJob).2).settings "transfer_executable"
        = some (.bool true)
    ∧ getTransferExecutableM ((setTransferExecutableM (.bool true) baseJob).2)
        = .err (.emptySetting "TransferExecutable")
    ∧ (setTransferExecutableM (.str "yes") baseJob).1 = .err .typeError := by decide

/-- Claim C9, counterexample: a job already holding cluster identifier 42
runs submit again; the successful reply names cluster 43 and the stored
identifier changes from 42 to 43, refuting immutability. -/
theorem cluster_overwritten_cex :
    job42.cluster = some 42
    ∧ (applyOp (Op.submitOp 0 "2 job(s) submitted to cluster 43.") job42).cluster = some 43
    ∧ (43 : Nat) ≠ 42 := by decide

/-- Claim C9, amended: once assigned, the cluster identifier is changed by
no modelled operation other than submit itself; a further successful
submit overwrites it with the cluster number parsed from the new reply. -/
theorem cluster_changed_only_by_submit (s : JobState) (c : Nat) (h : s.cluster = some c) :
    (∀ op : Op, (∀ code reply, op ≠ Op.submitOp code reply) →
      (applyOp op s).cluster = some c)
    ∧ (∀ reply ds, findClusterDigits reply.data = some ds →
        (applyOp (Op.submitOp 0 reply) s).cluster = some (digitsVal ds)) := by
  constructor
  · intro op hop
    cases op with
    | setU x =>
      simp only [applyOp, setUniverseM]
      split <;> simp [h]
    | setTE v =>
      cases v <;> simp [applyOp, setTransferExecutableM, h]
    | setEm a st em =>
      cases a <;> simp only [applyOp, setEmailM, setEmailAuto] <;> split_ifs <;> simp [h]
    | setPlain k v => simp [applyOp, h]
    | flushOp u =>
      simp only [applyOp, generateSubmitString]
      split <;> simp [h]
    | queueMark n => simp [applyOp, h]
    | submitOp code reply => exact absurd rfl (hop code reply)
  · intro reply ds hds
    simp [applyOp, submitM, hds, findClusterDigits_all _ _ hds, generateSubmitString]

theorem cluster_changed_only_by_submit_witness :
    (applyOp (Op.setU "standard") job42).cluster = some 42 :=
  (cluster_changed_only_by_submit job42 42 rfl).1 (Op.setU "standard")
    (fun _ _ hcontra => nomatch hcontra)

end Condor
